import Mathlib

/-!
Verification of the x-ui-pro subscription/routing engine
(`src/xui_bot.py` and `src/xui_api.py`) against its specification.

The model is a shallow embedding: SQLite tables become Lean lists of rows,
remote HTTP calls become explicit records of the requests issued (their
success/failure supplied as a boolean input, since the remote panel decides
them), and Python's `secrets` / `uuid` randomness is passed in as explicit
string parameters.  Python floats that only ever carry exact byte/GiB
quotients are modelled as rationals.
-/

namespace XUI

/- ### String helpers (ASCII case mapping, as used on 2-letter country codes) -/

/-- `str.lower` for ASCII letters (country codes are ASCII). -/
def charLower (c : Char) : Char :=
  if 65 ≤ c.toNat ∧ c.toNat ≤ 90 then Char.ofNat (c.toNat + 32) else c

/-- `str.upper` for ASCII letters. -/
def charUpper (c : Char) : Char :=
  if 97 ≤ c.toNat ∧ c.toNat ≤ 122 then Char.ofNat (c.toNat - 32) else c

/-- Python `s.lower()` restricted to ASCII. -/
def lowerStr (s : String) : String := String.mk (s.data.map charLower)

/-- Python `s.upper()` restricted to ASCII. -/
def upperStr (s : String) : String := String.mk (s.data.map charUpper)

/-- Python `s.startswith(p)`. -/
def strStartsWith (p s : String) : Bool := p.data.isPrefixOf s.data

/- ### BotDatabase (xui_bot.py, class `BotDatabase`) -/

/-- One row of the `users` table (`_init_db`):
`telegram_id INTEGER PRIMARY KEY, username TEXT, first_name TEXT,
is_admin INTEGER DEFAULT 0, is_banned INTEGER DEFAULT 0`. -/
structure UserRow where
  telegram_id : Int
  username : String
  first_name : String
  is_admin : Bool := false
  is_banned : Bool := false
deriving Repr, DecidableEq

/-- One row of the `subscriptions` table (`_init_db`): `email TEXT UNIQUE`,
`sub_id TEXT UNIQUE`, `traffic_used REAL DEFAULT 0`, `is_active INTEGER
DEFAULT 1`; the autoincrement id and the two date columns play no role in
the verified claims and are omitted. -/
structure SubRow where
  telegram_id : Int
  email : String
  uuid : String
  sub_id : String
  country : String
  inbound_id : Int
  traffic_gb : ℚ
  traffic_used : ℚ := 0
  is_active : Bool := true
deriving Repr, DecidableEq

/-- The bot's SQLite database (`/etc/xui-bot/bot.db`). -/
structure BotDb where
  users : List UserRow
  subs : List SubRow
deriving Repr, DecidableEq

/-- `BotDatabase.add_user`: `INSERT OR IGNORE INTO users (telegram_id,
username, first_name) VALUES (?, ?, ?)` — a row whose primary key already
exists is ignored. -/
def add_user (db : BotDb) (telegram_id : Int) (username first_name : String) : BotDb :=
  if db.users.any (fun u => u.telegram_id == telegram_id) then db
  else { db with users := db.users ++
          [{ telegram_id := telegram_id, username := username, first_name := first_name }] }

/-- `BotDatabase.get_user`: `SELECT * FROM users WHERE telegram_id = ?`,
`fetchone`. -/
def get_user (db : BotDb) (telegram_id : Int) : Option UserRow :=
  db.users.find? (fun u => u.telegram_id == telegram_id)

/-- SQLite `IntegrityError` raised when an `INSERT` violates a UNIQUE
constraint. -/
inductive DbError
  | uniqueViolation
deriving Repr, DecidableEq

/-- `BotDatabase.add_subscription`: plain `INSERT INTO subscriptions ...`;
the schema's UNIQUE constraints on `email` and `sub_id` make a colliding
insert fail (sqlite3.IntegrityError). -/
def add_subscription (db : BotDb) (telegram_id : Int) (email uuid sub_id country : String)
    (inbound_id : Int) (traffic_gb : ℚ) : Except DbError BotDb :=
  if db.subs.any (fun s => s.email == email || s.sub_id == sub_id) then
    .error .uniqueViolation
  else
    .ok { db with subs := db.subs ++
          [{ telegram_id := telegram_id, email := email, uuid := uuid, sub_id := sub_id,
             country := country, inbound_id := inbound_id, traffic_gb := traffic_gb }] }

/-- The uniqueness the schema's `email TEXT UNIQUE` and `sub_id TEXT
UNIQUE` constraints maintain over the `subscriptions` table. -/
def subsUnique (db : BotDb) : Prop :=
  db.subs.Pairwise (fun a b => a.email ≠ b.email ∧ a.sub_id ≠ b.sub_id)

/-- `BotDatabase.get_subscription_by_email`: `SELECT * FROM subscriptions
WHERE email = ?`, `fetchone`. -/
def get_subscription_by_email (db : BotDb) (email : String) : Option SubRow :=
  db.subs.find? (fun s => s.email == email)

/-- `BotDatabase.update_subscription_traffic`: `UPDATE subscriptions SET
traffic_used = ? WHERE email = ?` — an unconditional overwrite, no
comparison against the stored value. -/
def update_subscription_traffic (db : BotDb) (email : String) (used_gb : ℚ) : BotDb :=
  { db with
    subs := db.subs.map fun s =>
      if s.email == email then { s with traffic_used := used_gb } else s }

/- ### Remote panel calls (XUIClient / XUIAPIClient HTTP requests) -/

/-- A request issued to the remote 3x-ui panel.  `addClient` is
`POST /panel/inbound/addClient` (`XUIClient.add_client`), `delClient` is
`POST /panel/inbound/{id}/delClient/{uuid}` (`XUIClient.delete_client`),
`getTraffic` is `GET /panel/inbound/getClientTraffics/{email}`
(`XUIClient.get_client_traffic`). -/
inductive RemoteCall
  | addClient (inbound_id : Int) (email : String) (uuid : String)
  | delClient (inbound_id : Int) (uuid : String)
  | getTraffic (email : String)
deriving Repr, DecidableEq

/-- The routing alias / client email built by both issuance sites:
`f"user-{country.lower()}-{secrets.token_hex(4)}"`
(`XUIBot.callback_confirm` line 755, `CountryRoutingManager.create_country_user`
line 525); the random hex suffix is a parameter. -/
def mkAlias (country suffix : String) : String :=
  "user-" ++ lowerStr country ++ "-" ++ suffix

/- ### XUIBot.callback_confirm (xui_bot.py lines 735-831) -/

/-- Net effect of one `callback_confirm` run after the user pressed
Confirm. -/
structure ConfirmOutcome where
  /-- the bot database after the run -/
  db : BotDb
  /-- remote panel requests issued, in order -/
  calls : List RemoteCall
  /-- whether the success message was sent (no error path taken) -/
  ok : Bool
deriving Repr, DecidableEq

/-- `XUIBot.callback_confirm`, the issuance path: generates
`client_uuid = uuid.uuid4()`, `sub_id = secrets.token_hex(8)`,
`email = mkAlias country suffix` (randomness passed in as `client_uuid`,
`sub_id`, `suffix`), then calls `xui.add_client`; the panel's verdict is the
input `addAccepted`.  On `not success` it returns before any database write;
otherwise it runs `db.add_subscription`, whose UNIQUE-constraint failure is
caught by the surrounding `except` (error message, no state change). -/
def callback_confirm (db : BotDb) (telegram_id : Int) (country : String) (traffic_gb : ℚ)
    (inbound_id : Int) (client_uuid sub_id suffix : String) (addAccepted : Bool) :
    ConfirmOutcome :=
  let email := mkAlias country suffix
  let calls := [RemoteCall.addClient inbound_id email client_uuid]
  if addAccepted then
    match add_subscription db telegram_id email client_uuid sub_id country inbound_id
        traffic_gb with
    | .error _ => { db := db, calls := calls, ok := false }
    | .ok db2 => { db := db2, calls := calls, ok := true }
  else
    { db := db, calls := calls, ok := false }

/- ### xui_api.py: Client and CountryRoutingManager.create_country_user -/

/-- The `Client` dataclass of xui_api.py (fields relevant to the claims;
`id` defaults to `uuid.uuid4()` and `sub_id` to `secrets.token_hex(8)`,
both passed in explicitly here). -/
structure Client where
  id : String
  email : String
  total_gb : ℚ
  limit_ip : Int
  tg_id : String
  sub_id : String
deriving Repr, DecidableEq

/-- Exceptions `create_country_user` can raise: `ValueError` when the
country is not in the loaded table, the generic `Exception` when the panel
rejects the add. -/
inductive IssueError
  | countryUnavailable
  | addClientFailed
deriving Repr, DecidableEq

/-- Net effect of one `CountryRoutingManager.create_country_user` run. -/
structure IssueOutcome where
  result : Except IssueError (Client × String)
  calls : List RemoteCall
deriving Repr

/-- `CountryRoutingManager.create_country_user` (xui_api.py lines 506-544):
uppercases the country, raises `ValueError` when it is not a key of the
loaded country table (before building the client and before any remote
call), otherwise builds the client with `email = mkAlias country suffix`
and calls `add_client`; a rejected add raises.  Randomness (`genId` for
`uuid4`, `suffix` for the email, `genSub` for `sub_id`) and the panel's
verdict `addAccepted` are inputs. -/
def create_country_user (countries : List (String × Int)) (inbound_id : Int) (country : String)
    (traffic_gb : ℚ) (max_ips : Int) (telegram_id : String)
    (genId suffix genSub : String) (addAccepted : Bool) : IssueOutcome :=
  let c := upperStr country
  if countries.any (fun p => p.1 == c) then
    let email := mkAlias c suffix
    let client : Client := { id := genId, email := email, total_gb := traffic_gb,
                             limit_ip := max_ips, tg_id := telegram_id, sub_id := genSub }
    if addAccepted then
      { result := .ok (client, "sub/" ++ genSub),
        calls := [RemoteCall.addClient inbound_id email genId] }
    else
      { result := .error .addClientFailed,
        calls := [RemoteCall.addClient inbound_id email genId] }
  else
    { result := .error .countryUnavailable, calls := [] }

/- ### Fleet registry parsing (CountryRoutingManager._load_psiphon_countries,
CountryManager._load_countries) -/

/-- Whitespace removed by Python `str.strip()`. -/
def isSpaceChar (c : Char) : Bool :=
  c == ' ' || c == '\t' || c == '\n' || c == '\r' || c == Char.ofNat 11 || c == Char.ofNat 12

/-- Python `line.strip()`. -/
def stripChars (l : List Char) : List Char :=
  ((l.dropWhile isSpaceChar).reverse.dropWhile isSpaceChar).reverse

/-- Python `s.split("=", 1)`: split at the first `=`; `none` when no `=`
occurs. -/
def splitOnceEq : List Char → Option (List Char × List Char)
  | [] => none
  | c :: cs =>
    if c = '=' then some ([], cs)
    else match splitOnceEq cs with
      | none => none
      | some (a, b) => some (c :: a, b)

/-- Python `s.split(":")` (unbounded split). -/
def splitColon : List Char → List (List Char)
  | [] => [[]]
  | c :: cs =>
    if c = ':' then [] :: splitColon cs
    else match splitColon cs with
      | [] => [[c]]
      | h :: t => (c :: h) :: t

/-- Decimal digit value. -/
def digitVal? (c : Char) : Option Nat :=
  if 48 ≤ c.toNat ∧ c.toNat ≤ 57 then some (c.toNat - 48) else none

/-- Accumulate a decimal numeral; `none` on any non-digit. -/
def digitsValAux : List Char → Nat → Option Nat
  | [], acc => some acc
  | c :: cs, acc =>
    match digitVal? c with
    | none => none
    | some d => digitsValAux cs (acc * 10 + d)

/-- Python `int(s)` for a plain decimal string: surrounding whitespace and
one optional sign are allowed, at least one digit is required (digit-group
underscores, accepted by Python, are not modelled; no registry port uses
them). -/
def pyIntChars? (l : List Char) : Option Int :=
  match stripChars l with
  | [] => none
  | c :: cs =>
    if c = '-' then
      match cs with
      | [] => none
      | _ => (digitsValAux cs 0).map (fun n => -(n : Int))
    else if c = '+' then
      match cs with
      | [] => none
      | _ => (digitsValAux cs 0).map (fun n => (n : Int))
    else (digitsValAux (c :: cs) 0).map (fun n => (n : Int))

/-- Outcome of the shared per-line parser body
(`if "=" in line: instance_id, config = line.strip().split("=", 1);
country, port = config.split(":"); countries[country] = int(port)`):
either the line has no `=` and is skipped, or it parses to an entry, or the
tuple unpacking / `int()` raises `ValueError`. -/
inductive LineResult
  | skipped
  | entry (country : String) (port : Int)
  | raised
deriving Repr, DecidableEq

/-- One iteration of the registry-file loop, shared verbatim by
`CountryRoutingManager._load_psiphon_countries` (xui_api.py 494-498) and
`CountryManager._load_countries` (xui_bot.py 438-442). -/
def parseFleetLine (line : String) : LineResult :=
  if line.data.contains '=' then
    match splitOnceEq (stripChars line.data) with
    | none => .raised
    | some (_, config) =>
      match splitColon config with
      | [country, port] =>
        match pyIntChars? port with
        | some p => .entry (String.mk country) p
        | none => .raised
      | _ => .raised
  else .skipped

/-- Python dict assignment `countries[country] = port`. -/
def dictInsert (m : List (String × Int)) (k : String) (v : Int) : List (String × Int) :=
  if m.any (fun p => p.1 == k) then
    m.map (fun p => if p.1 == k then (k, v) else p)
  else m ++ [(k, v)]

/-- The loop of `_load_psiphon_countries` (xui_api.py): no exception
handler, so a raising line aborts the whole load with the exception. -/
def loadFleetApi : List String → List (String × Int) → Except Unit (List (String × Int))
  | [], acc => .ok acc
  | l :: rest, acc =>
    match parseFleetLine l with
    | .skipped => loadFleetApi rest acc
    | .entry c p => loadFleetApi rest (dictInsert acc c p)
    | .raised => .error ()

/-- `CountryRoutingManager._load_psiphon_countries`: `countries = {}`;
absent state file leaves it empty (`none` models the absent file,
`some lines` its contents); otherwise the unguarded loop runs. -/
def load_psiphon_countries (file : Option (List String)) : Except Unit (List (String × Int)) :=
  match file with
  | none => .ok []
  | some lines => loadFleetApi lines []

/-- The loop of `CountryManager._load_countries` (xui_bot.py): the whole
`with open ... for line` block sits inside `try/except Exception`, so a
raising line stops the loop and the entries parsed so far are returned. -/
def loadFleetBot : List String → List (String × Int) → List (String × Int)
  | [], acc => acc
  | l :: rest, acc =>
    match parseFleetLine l with
    | .skipped => loadFleetBot rest acc
    | .entry c p => loadFleetBot rest (dictInsert acc c p)
    | .raised => acc

/-- `CountryManager._load_countries`: absent file yields `{}`; exceptions
while reading are logged, and whatever was accumulated is returned. -/
def load_countries (file : Option (List String)) : List (String × Int) :=
  match file with
  | none => []
  | some lines => loadFleetBot lines []

/- ### XUIBot.cmd_status (xui_bot.py lines 905-950) -/

/-- The remote traffic record returned by
`GET /panel/inbound/getClientTraffics/{email}`: byte counters `up`,
`down`, `total`. -/
structure TrafficInfo where
  up : Int
  down : Int
  total : Int
deriving Repr, DecidableEq

/-- Bytes to GiB: the three `/ (1024**3)` conversions in `cmd_status`. -/
def gb (n : Int) : ℚ := (n : ℚ) / (1024 ^ 3)

/-- Python `int(x)` on a number: truncation toward zero. -/
def pyTrunc (q : ℚ) : Int := Int.tdiv q.num (q.den : Int)

/-- What `cmd_status` renders for one subscription: the limited branch
(taken when `total > 0`, the only branch that divides by `total`), the
unlimited branch, or the fetch-failure line. -/
inductive StatusRender
  | limited (up down used total percent : ℚ) (filledBars : Int)
  | unlimited (up down used : ℚ)
  | fetchFailed
deriving Repr, DecidableEq

/-- Net effect of one iteration of the `cmd_status` subscription loop. -/
structure StatusStep where
  render : StatusRender
  /-- `remaining = total - used if total > 0 else float("inf")`; computed
  but never used afterwards.  `none` models the infinity. -/
  remaining : Option ℚ
  /-- writes to the local `subscriptions` table: `cmd_status` performs
  none -/
  dbWrites : List (String × ℚ)
  /-- remote delete requests issued: `cmd_status` issues none -/
  remoteDeletes : List RemoteCall
deriving Repr, DecidableEq

/-- One iteration of the `for sub in subs` loop of `XUIBot.cmd_status`,
given the result of `self.xui.get_client_traffic(email)` (`none` when the
fetch failed). -/
def cmd_status_step (traffic_info : Option TrafficInfo) : StatusStep :=
  match traffic_info with
  | none =>
    { render := .fetchFailed, remaining := none, dbWrites := [], remoteDeletes := [] }
  | some t =>
    let up := gb t.up
    let down := gb t.down
    let total := gb t.total
    let used := up + down
    let remaining := if 0 < total then some (total - used) else none
    if 0 < total then
      let percent := used / total * 100
      let filled := pyTrunc (10 * percent / 100)
      { render := .limited up down used total percent filled,
        remaining := remaining, dbWrites := [], remoteDeletes := [] }
    else
      { render := .unlimited up down used,
        remaining := remaining, dbWrites := [], remoteDeletes := [] }

/-- `used` as shown by a `StatusRender`. -/
def renderUsed : StatusRender → Option ℚ
  | .limited _ _ used _ _ _ => some used
  | .unlimited _ _ used => some used
  | .fetchFailed => none

/- ### Identifier value spaces (xui_bot.py 753-755, xui_api.py 58 and 66) -/

/-- Number of distinct outputs of `secrets.token_hex(nbytes)`:
`nbytes` random bytes rendered as hex. -/
def tokenHexSpace (nbytes : Nat) : Nat := 2 ^ (8 * nbytes)

/-- Number of distinct RFC 4122 version-4 UUIDs, the range of
`uuid.uuid4()`: 128 bits with the 4 version bits and 2 variant bits
fixed. -/
def uuid4Space : Nat := 2 ^ 122

/-- `sub_id = secrets.token_hex(8)` (both files). -/
def subIdSpace : Nat := tokenHexSpace 8

/-- `client_uuid = str(uuid.uuid4())` / `Client.id` default. -/
def clientUuidSpace : Nat := uuid4Space

/-- The random suffix of the routing alias, `secrets.token_hex(4)`. -/
def emailSuffixSpace : Nat := tokenHexSpace 4

/- ### Helper lemmas -/

theorem isPrefixOf_self_append (l t : List Char) : l.isPrefixOf (l ++ t) = true := by
  induction l with
  | nil => simp
  | cons c cs ih => simp [List.isPrefixOf_cons₂, ih]

/- ### Claim theorems -/

/-- Claim C1, corrected.  The claim says a usage update smaller than the
stored `traffic_used` is rejected as `StaleUpdate` and never decreases the
stored value; in fact `update_subscription_traffic` overwrites the stored
value with the supplied one unconditionally on every row matching the
email, with no comparison and no error path. -/
theorem C1_overwrite_unconditional (db : BotDb) (email : String) (v : ℚ) :
    get_subscription_by_email (update_subscription_traffic db email v) email
      = (get_subscription_by_email db email).map (fun s => { s with traffic_used := v }) := by
  simp only [get_subscription_by_email, update_subscription_traffic]
  induction db.subs with
  | nil => rfl
  | cons s t ih =>
    cases hc : s.email == email with
    | true => simp [List.find?, hc]
    | false => simpa [List.find?, hc] using ih

/-- Claim C1, counterexample to the claim as stated: a subscription with
`traffic_used = 5` updated with the smaller value `3` ends up storing `3`
— the counter decreases and no rejection occurs. -/
theorem C1_counterexample :
    get_subscription_by_email
      (update_subscription_traffic
        { users := [],
          subs := [{ telegram_id := 1, email := "user-de-aaaa", uuid := "u0", sub_id := "s0",
                     country := "DE", inbound_id := 1, traffic_gb := 10, traffic_used := 5,
                     is_active := true }] }
        "user-de-aaaa" 3)
      "user-de-aaaa"
      = some { telegram_id := 1, email := "user-de-aaaa", uuid := "u0", sub_id := "s0",
               country := "DE", inbound_id := 1, traffic_gb := 10, traffic_used := 3,
               is_active := true }
    ∧ (3 : ℚ) < 5 := by
  constructor
  · rfl
  · norm_num

/-- Claim C3, confirmed: when the remote add is rejected
(`addAccepted = false`, i.e. `add_client` returned failure),
`callback_confirm` returns before `add_subscription`, so the local
database is unchanged and the issuance reports failure. -/
theorem C3_failed_add_leaves_ledger (db : BotDb) (telegram_id : Int) (country : String)
    (traffic_gb : ℚ) (inbound_id : Int) (client_uuid sub_id suffix : String) :
    (callback_confirm db telegram_id country traffic_gb inbound_id client_uuid sub_id
        suffix false).db = db
    ∧ (callback_confirm db telegram_id country traffic_gb inbound_id client_uuid sub_id
        suffix false).ok = false :=
  ⟨rfl, rfl⟩

/-- Claim C10, confirmed: `add_user` is `INSERT OR IGNORE` keyed on
`telegram_id`, so when a row for the id already exists a later call with
any username and first name leaves the database — and hence the stored
row — unchanged. -/
theorem C10_add_user_no_overwrite (db : BotDb) (telegram_id : Int) (r : UserRow)
    (username first_name : String) (h : get_user db telegram_id = some r) :
    add_user db telegram_id username first_name = db
    ∧ get_user (add_user db telegram_id username first_name) telegram_id = some r := by
  have h2 : db.users.find? (fun u => u.telegram_id == telegram_id) = some r := h
  have hmem : r ∈ db.users := List.mem_of_find?_eq_some h2
  have hp : (fun u : UserRow => u.telegram_id == telegram_id) r = true :=
    @List.find?_some UserRow (fun u => u.telegram_id == telegram_id) r db.users h2
  have hany : db.users.any (fun u => u.telegram_id == telegram_id) = true :=
    List.any_eq_true.mpr ⟨r, hmem, hp⟩
  have heq : add_user db telegram_id username first_name = db := by
    simp [add_user, hany]
  refine ⟨heq, ?_⟩
  rw [heq]
  exact h

/-- Claim C10 witness: a second `add_user` for id 7 with a different
username leaves the original row in place. -/
theorem C10_witness :
    add_user { users := [{ telegram_id := 7, username := "alice", first_name := "A" }],
               subs := [] } 7 "bob" "B"
      = { users := [{ telegram_id := 7, username := "alice", first_name := "A" }], subs := [] }
    ∧ get_user
        (add_user { users := [{ telegram_id := 7, username := "alice", first_name := "A" }],
                    subs := [] } 7 "bob" "B") 7
      = some { telegram_id := 7, username := "alice", first_name := "A" } :=
  C10_add_user_no_overwrite
    { users := [{ telegram_id := 7, username := "alice", first_name := "A" }], subs := [] }
    7 { telegram_id := 7, username := "alice", first_name := "A" } "bob" "B" rfl

/-- Claim C2, amended part: for every traffic report the status loop
computes `used = up + down` and renders it, but writes nothing to the
local `subscriptions` table and issues no remote delete — regardless of
how far `used` exceeds the quota. -/
theorem C2_status_no_fold_no_revoke (ti : TrafficInfo) :
    (cmd_status_step (some ti)).dbWrites = []
    ∧ (cmd_status_step (some ti)).remoteDeletes = []
    ∧ renderUsed (cmd_status_step (some ti)).render = some (gb ti.up + gb ti.down) := by
  by_cases h : 0 < gb ti.total <;> simp [cmd_status_step, renderUsed, h]

/-- Claim C2, counterexample to the claim as stated: on the spec's own
scenario (`uploaded = 6 GiB`, `downloaded = 5 GiB`, quota `10 GiB`, so
consumed `11 GiB` newly exceeds the positive quota) the status path issues
no remote delete and performs no local write, though the claim requires a
revoke and a fold into the local record. -/
theorem C2_counterexample :
    (cmd_status_step (some (TrafficInfo.mk (6 * 2 ^ 30) (5 * 2 ^ 30)
      (10 * 2 ^ 30)))).remoteDeletes = []
    ∧ (cmd_status_step (some (TrafficInfo.mk (6 * 2 ^ 30) (5 * 2 ^ 30)
      (10 * 2 ^ 30)))).dbWrites = []
    ∧ renderUsed (cmd_status_step (some (TrafficInfo.mk (6 * 2 ^ 30) (5 * 2 ^ 30)
      (10 * 2 ^ 30)))).render = some 11
    ∧ (10 : ℚ) < 11 := by
  have h : (0 : ℚ) < gb (10 * 2 ^ 30) := by norm_num [gb]
  refine ⟨?_, ?_, ?_, by norm_num⟩ <;>
    simp [cmd_status_step, renderUsed, h] <;> norm_num [gb]

/-- Claim C9, confirmed: in the status rendering, the percentage division
happens only inside the branch guarded by `total > 0`; a report with
`total = 0` takes the unlimited branch, where no division by the quota is
performed. -/
theorem C9_guarded_division :
    (∀ up down : Int,
        (cmd_status_step (some { up := up, down := down, total := 0 })).render
          = .unlimited (gb up) (gb down) (gb up + gb down))
    ∧ (∀ ti : TrafficInfo, 0 < ti.total →
        (cmd_status_step (some ti)).render
          = .limited (gb ti.up) (gb ti.down) (gb ti.up + gb ti.down) (gb ti.total)
              ((gb ti.up + gb ti.down) / gb ti.total * 100)
              (pyTrunc (10 * ((gb ti.up + gb ti.down) / gb ti.total * 100) / 100))) := by
  constructor
  · intro up down
    simp [cmd_status_step, gb]
  · intro ti h
    have hq : 0 < gb ti.total := by
      have h0 : (0 : ℚ) < (ti.total : ℚ) := by exact_mod_cast h
      exact div_pos h0 (by norm_num)
    simp [cmd_status_step, hq]

/-- Claim C9 witness: a report with a positive quota takes the guarded
limited branch; a zero-quota report renders unlimited. -/
theorem C9_witness :
    (cmd_status_step (some { up := 2 ^ 29, down := 2 ^ 29, total := 2 ^ 30 })).render
      = .limited (gb (2 ^ 29)) (gb (2 ^ 29)) (gb (2 ^ 29) + gb (2 ^ 29)) (gb (2 ^ 30))
          ((gb (2 ^ 29) + gb (2 ^ 29)) / gb (2 ^ 30) * 100)
          (pyTrunc (10 * ((gb (2 ^ 29) + gb (2 ^ 29)) / gb (2 ^ 30) * 100) / 100))
    ∧ (cmd_status_step (some { up := 0, down := 0, total := 0 })).render
      = .unlimited (gb 0) (gb 0) (gb 0 + gb 0) :=
  ⟨C9_guarded_division.2 { up := 2 ^ 29, down := 2 ^ 29, total := 2 ^ 30 } (by norm_num),
   C9_guarded_division.1 0 0⟩

/-- Claim C4, amended part: uniqueness of `email` (routing alias) and
`sub_id` across the subscriptions table is enforced only by the UNIQUE
constraints at insert time — a successful `add_subscription` preserves the
uniqueness invariant, and an insert colliding on either key fails. -/
theorem C4_uniqueness_at_insert :
    (∀ db telegram_id email uuid sub_id country inbound_id traffic_gb db2,
        subsUnique db →
        add_subscription db telegram_id email uuid sub_id country inbound_id traffic_gb
          = .ok db2 →
        subsUnique db2)
    ∧ (∀ db telegram_id email uuid sub_id country inbound_id (traffic_gb : ℚ),
        db.subs.any (fun s => s.email == email || s.sub_id == sub_id) = true →
        add_subscription db telegram_id email uuid sub_id country inbound_id traffic_gb
          = .error .uniqueViolation) := by
  constructor
  · intro db tid email uu si c ib q db2 hu hok
    by_cases hc : db.subs.any (fun s => s.email == email || s.sub_id == si) = true
    · simp [add_subscription, hc] at hok
    · have hc2 : db.subs.any (fun s => s.email == email || s.sub_id == si) = false :=
        Bool.not_eq_true _ ▸ eq_false_of_ne_true hc
      simp [add_subscription, hc2] at hok
      have hall : ∀ s ∈ db.subs, s.email ≠ email ∧ s.sub_id ≠ si := by
        intro s hs
        have := List.any_eq_false.mp hc2 s hs
        simpa using this
      rw [← hok]
      refine List.pairwise_append.mpr ⟨hu, List.pairwise_singleton _ _, ?_⟩
      intro a ha b hb
      simp only [List.mem_singleton] at hb
      subst hb
      exact hall a ha
  · intro db tid email uu si c ib q h
    simp [add_subscription, h]

/-- Claim C4, counterexample to the claim as stated: with a ledger already
holding alias `user-de-aaaa`, a confirm whose random suffix regenerates
the same alias issues the remote add anyway (the identity is used with no
prior ledger check), then fails on the local insert — one single
generation attempt, no retry, no CapacityError, and an orphaned remote
credential. -/
theorem C4_counterexample :
    (callback_confirm
        { users := [],
          subs := [{ telegram_id := 1, email := "user-de-aaaa", uuid := "u0", sub_id := "s0",
                     country := "DE", inbound_id := 1, traffic_gb := 10 }] }
        2 "DE" 10 1 "u1" "s1" "aaaa" true).ok = false
    ∧ (callback_confirm
        { users := [],
          subs := [{ telegram_id := 1, email := "user-de-aaaa", uuid := "u0", sub_id := "s0",
                     country := "DE", inbound_id := 1, traffic_gb := 10 }] }
        2 "DE" 10 1 "u1" "s1" "aaaa" true).db
      = { users := [],
          subs := [{ telegram_id := 1, email := "user-de-aaaa", uuid := "u0", sub_id := "s0",
                     country := "DE", inbound_id := 1, traffic_gb := 10 }] }
    ∧ (callback_confirm
        { users := [],
          subs := [{ telegram_id := 1, email := "user-de-aaaa", uuid := "u0", sub_id := "s0",
                     country := "DE", inbound_id := 1, traffic_gb := 10 }] }
        2 "DE" 10 1 "u1" "s1" "aaaa" true).calls
      = [RemoteCall.addClient 1 "user-de-aaaa" "u1"] :=
  ⟨rfl, rfl, rfl⟩

/-- Claim C4 witness: the invariant-preservation part applied to an empty
table, and the collision part applied to a table already holding the
alias. -/
theorem C4_witness :
    subsUnique
      { users := [],
        subs := [{ telegram_id := 1, email := "user-de-aaaa", uuid := "u1", sub_id := "s1",
                   country := "DE", inbound_id := 1, traffic_gb := 10 }] }
    ∧ add_subscription
        { users := [],
          subs := [{ telegram_id := 1, email := "user-de-aaaa", uuid := "u1", sub_id := "s1",
                     country := "DE", inbound_id := 1, traffic_gb := 10 }] }
        2 "user-de-aaaa" "u2" "s2" "DE" 1 10 = .error .uniqueViolation :=
  ⟨C4_uniqueness_at_insert.1 { users := [], subs := [] } 1 "user-de-aaaa" "u1" "s1" "DE" 1 10
      { users := [],
        subs := [{ telegram_id := 1, email := "user-de-aaaa", uuid := "u1", sub_id := "s1",
                   country := "DE", inbound_id := 1, traffic_gb := 10 }] }
      (List.Pairwise.nil) rfl,
   C4_uniqueness_at_insert.2
      { users := [],
        subs := [{ telegram_id := 1, email := "user-de-aaaa", uuid := "u1", sub_id := "s1",
                   country := "DE", inbound_id := 1, traffic_gb := 10 }] }
      2 "user-de-aaaa" "u2" "s2" "DE" 1 10 rfl⟩

/-- Claim C5, confirmed: `create_country_user` called with a country whose
uppercased code is not a key of the loaded country table raises
`ValueError` before building the client — no remote call is attempted (and
the function writes no ledger rows at all). -/
theorem C5_route_unavailable (countries : List (String × Int)) (inbound_id : Int)
    (country : String) (traffic_gb : ℚ) (max_ips : Int)
    (telegram_id genId suffix genSub : String) (addAccepted : Bool)
    (h : countries.any (fun p => p.1 == upperStr country) = false) :
    (create_country_user countries inbound_id country traffic_gb max_ips telegram_id genId
        suffix genSub addAccepted).result = .error .countryUnavailable
    ∧ (create_country_user countries inbound_id country traffic_gb max_ips telegram_id genId
        suffix genSub addAccepted).calls = [] := by
  constructor <;> simp [create_country_user, h]

/-- Claim C5 witness: requesting country `ZZ` against a table serving only
`DE` fails with the country error and issues no remote call. -/
theorem C5_witness :
    (create_country_user [("DE", 1080)] 1 "ZZ" 10 2 "t" "g" "x" "s" true).result
      = .error .countryUnavailable
    ∧ (create_country_user [("DE", 1080)] 1 "ZZ" 10 2 "t" "g" "x" "s" true).calls = [] :=
  C5_route_unavailable [("DE", 1080)] 1 "ZZ" 10 2 "t" "g" "x" "s" true rfl

/-- Claim C7, confirmed: every generated alias has the shape
`"user-" ++ lowercase country ++ "-" ++ suffix`, and in particular every
client issued by `create_country_user` for `"DE"` has an email starting
with `"user-de-"`. -/
theorem C7_alias_shape :
    (∀ country suffix, strStartsWith ("user-" ++ lowerStr country ++ "-")
        (mkAlias country suffix) = true)
    ∧ (∀ countries inbound_id (traffic_gb : ℚ) max_ips telegram_id genId suffix genSub cl link,
        (create_country_user countries inbound_id "DE" traffic_gb max_ips telegram_id genId
            suffix genSub true).result = .ok (cl, link) →
        strStartsWith "user-de-" cl.email = true) := by
  constructor
  · intro country suffix
    show (("user-" ++ lowerStr country ++ "-").data).isPrefixOf
        (mkAlias country suffix).data = true
    have hd : (mkAlias country suffix).data
        = ("user-" ++ lowerStr country ++ "-").data ++ suffix.data := by
      simp [mkAlias, String.data_append]
    rw [hd]
    exact isPrefixOf_self_append _ _
  · intro countries ib q mi tg gid sfx gsub cl link h
    by_cases hc : countries.any (fun p => p.1 == upperStr "DE") = true
    · simp [create_country_user, hc] at h
      obtain ⟨hcl, -⟩ := h
      have hemail : cl.email = mkAlias (upperStr "DE") sfx := by
        rw [← hcl]
      rw [hemail]
      show ("user-de-".data).isPrefixOf (mkAlias (upperStr "DE") sfx).data = true
      have hd : (mkAlias (upperStr "DE") sfx).data = "user-de-".data ++ sfx.data := rfl
      rw [hd]
      exact isPrefixOf_self_append _ _
    · have hc2 : countries.any (fun p => p.1 == upperStr "DE") = false :=
        Bool.not_eq_true _ ▸ eq_false_of_ne_true hc
      simp [create_country_user, hc2] at h

/-- Claim C7 witness: a concrete issuance for `"DE"` yields an email with
the `user-de-` shape. -/
theorem C7_witness :
    strStartsWith "user-de-"
      (Client.email
        { id := "gid", email := mkAlias (upperStr "DE") "abcd", total_gb := 10,
          limit_ip := 2, tg_id := "t", sub_id := "gsub" }) = true :=
  C7_alias_shape.2 [("DE", 1080)] 1 10 2 "t" "gid" "abcd" "gsub"
    { id := "gid", email := mkAlias (upperStr "DE") "abcd", total_gb := 10,
      limit_ip := 2, tg_id := "t", sub_id := "gsub" }
    ("sub/" ++ "gsub") rfl

/-- Claim C6, amended part: an absent registry file yields an empty table
in both loaders, and a line without `=` is skipped by both; but a line
that parses to a `ValueError` (its part after the first `=` is not
`COUNTRY:PORT` with an integer port) is not merely skipped — it aborts the
api loader with the uncaught exception, and makes the bot loader return
only the entries accumulated before it, dropping the rest of the file. -/
theorem C6_lenient_only_partially :
    load_psiphon_countries none = .ok []
    ∧ load_countries none = []
    ∧ (∀ l rest acc, parseFleetLine l = .skipped →
        loadFleetApi (l :: rest) acc = loadFleetApi rest acc
        ∧ loadFleetBot (l :: rest) acc = loadFleetBot rest acc)
    ∧ (∀ l rest acc, parseFleetLine l = .raised →
        loadFleetApi (l :: rest) acc = .error ()
        ∧ loadFleetBot (l :: rest) acc = acc) := by
  refine ⟨rfl, rfl, ?_, ?_⟩ <;>
    · intro l rest acc h
      constructor <;> simp [loadFleetApi, loadFleetBot, h]

/-- Claim C6, counterexample to the claim as stated: the malformed line
`"y=US"` (no `:` after the `=`) is fatal to
`CountryRoutingManager._load_psiphon_countries`, and in
`CountryManager._load_countries` it silently discards the well-formed line
`"x=DE:1080"` that follows it — in neither loader is it merely skipped. -/
theorem C6_counterexample :
    load_psiphon_countries (some ["y=US"]) = .error ()
    ∧ load_countries (some ["y=US", "x=DE:1080"]) = []
    ∧ load_countries (some ["x=DE:1080"]) = [("DE", 1080)] := by
  refine ⟨rfl, rfl, rfl⟩

/-- Claim C6 witness: the amended behaviour applied to concrete lines — a
line without `=` is skipped by both loaders, a raising line kills the api
load and truncates the bot load. -/
theorem C6_witness :
    loadFleetApi ["# comment", "x=DE:1080"] [] = loadFleetApi ["x=DE:1080"] []
    ∧ loadFleetBot ["y=US", "x=DE:1080"] [] = [] := by
  have hskip : parseFleetLine "# comment" = .skipped := rfl
  have hraise : parseFleetLine "y=US" = .raised := rfl
  exact ⟨(C6_lenient_only_partially.2.2.1 "# comment" ["x=DE:1080"] [] hskip).1,
         (C6_lenient_only_partially.2.2.2 "y=US" ["x=DE:1080"] [] hraise).2⟩

/-- Claim C8, amended part: the identifiers are drawn from CSPRNG-backed
generators, but their value spaces are `2 ^ 122` for the client uuid
(`uuid.uuid4`), `2 ^ 64` for `sub_id` (`secrets.token_hex(8)`) and
`2 ^ 32` for the alias suffix (`secrets.token_hex(4)`) — all short of 128
bits. -/
theorem C8_identifier_spaces :
    clientUuidSpace = 2 ^ 122
    ∧ subIdSpace = 2 ^ 64
    ∧ emailSuffixSpace = 2 ^ 32
    ∧ subIdSpace < 2 ^ 128
    ∧ clientUuidSpace < 2 ^ 128 := by
  refine ⟨rfl, rfl, rfl, ?_, ?_⟩ <;>
    · simp only [subIdSpace, clientUuidSpace, uuid4Space, tokenHexSpace]
      norm_num

/-- Claim C8, counterexample to the claim as stated: neither generated
identifier ranges over at least `2 ^ 128` values — `sub_id` has `2 ^ 64`
possibilities and the client uuid `2 ^ 122`. -/
theorem C8_counterexample :
    ¬ (2 ^ 128 ≤ subIdSpace ∧ 2 ^ 128 ≤ clientUuidSpace) := by
  intro h
  have h1 : (2 : ℕ) ^ 128 ≤ 2 ^ 64 := by
    simpa [subIdSpace, tokenHexSpace] using h.1
  norm_num at h1

end XUI
